import Mathlib

/-!
Shallow embedding of the monarch Schema Validation and Relation Population
Engine (src/schema-type.ts, src/collection/query/find-one-and-update.ts,
src/collection/types/query-options.ts), together with theorems settling the
specification claims about it.

Conventions: JavaScript runtime values are modelled by `JsValue`; a JS
`throw` becomes `Except.error`; a thrown `new Error(msg)` is
`MError.thrown msg` while an unguarded runtime failure (property access on
undefined) is `MError.typeError`.
-/

/-- Runtime JavaScript values, as far as the engine inspects them.
`num` and `nan` together model JS numbers (integral values suffice here);
`date` models a `Date` instance by its timestamp. -/
inductive JsValue where
  | undef
  | null
  | num (n : Int)
  | nan
  | str (s : String)
  | boolean (b : Bool)
  | date (t : Int)
  deriving DecidableEq, Repr

/-- The JS `typeof` operator on the modelled values: `typeof null` and
`typeof` of a `Date` instance are both "object". -/
def jsTypeof : JsValue → String
  | JsValue.undef => "undefined"
  | JsValue.null => "object"
  | JsValue.num _ => "number"
  | JsValue.nan => "number"
  | JsValue.str _ => "string"
  | JsValue.boolean _ => "boolean"
  | JsValue.date _ => "object"

/-- The JS `Number(value)` coercion. The string case is modelled for the
empty string and plain digit strings only; other strings coerce to NaN
(full JS numeric-literal parsing with signs, decimals and exponents is not
needed by any theorem below). -/
def jsNumber : JsValue → JsValue
  | JsValue.undef => JsValue.nan
  | JsValue.null => JsValue.num 0
  | JsValue.num n => JsValue.num n
  | JsValue.nan => JsValue.nan
  | JsValue.str s =>
    let t := s.trim
    if t = "" then JsValue.num 0
    else if t.all (fun c => c.isDigit) then
      match t.toNat? with
      | some n => JsValue.num (Int.ofNat n)
      | none => JsValue.nan
    else JsValue.nan
  | JsValue.boolean b => JsValue.num (if b then 1 else 0)
  | JsValue.date t => JsValue.num t

/-- The JS `Boolean(value)` coercion (truthiness). -/
def jsTruthy : JsValue → Bool
  | JsValue.undef => false
  | JsValue.null => false
  | JsValue.num n => n ≠ 0
  | JsValue.nan => false
  | JsValue.str s => s ≠ ""
  | JsValue.boolean b => b
  | JsValue.date _ => true

instance instDecEqExcept {ε α : Type} [DecidableEq ε] [DecidableEq α] :
    DecidableEq (Except ε α) := fun a b =>
  match a, b with
  | Except.error e1, Except.error e2 =>
    if h : e1 = e2 then Decidable.isTrue (by simp [h])
    else Decidable.isFalse (by simp [h])
  | Except.error _, Except.ok _ => Decidable.isFalse (by simp)
  | Except.ok _, Except.error _ => Decidable.isFalse (by simp)
  | Except.ok a1, Except.ok a2 =>
    if h : a1 = a2 then Decidable.isTrue (by simp [h])
    else Decidable.isFalse (by simp [h])

/-- Failures of the engine. `thrown msg` is a deliberate
`throw new Error(msg)`; `typeError` is an unguarded runtime TypeError such
as a property access on `undefined`, which carries no message or context. -/
inductive MError where
  | thrown (msg : String)
  | typeError
  deriving DecidableEq, Repr

/-- Whether a failure is a deliberately thrown `Error` (as opposed to an
unguarded runtime TypeError). -/
def MError.isThrown : MError → Bool
  | MError.thrown _ => true
  | MError.typeError => false

/-- The `MonarchSchemaTypeKind` enum of src/schema-type.ts. -/
inductive MonarchSchemaTypeKind where
  | MonarchString
  | MonarchNumber
  | MonarchDate
  | MonarchObjectID
  | MonarchBoolean
  deriving DecidableEq, Repr

/-- The string value of each `MonarchSchemaTypeKind` enum member. -/
def kindString : MonarchSchemaTypeKind → String
  | MonarchSchemaTypeKind.MonarchString => "string"
  | MonarchSchemaTypeKind.MonarchNumber => "number"
  | MonarchSchemaTypeKind.MonarchDate => "date"
  | MonarchSchemaTypeKind.MonarchObjectID => "objectId"
  | MonarchSchemaTypeKind.MonarchBoolean => "boolean"

/-- The mutable state of a `MonarchSchemaType` instance
(src/schema-type.ts): the kind from `_def.type`, plus `_required`
(initially true), `_nullable` (initially false) and `_default`
(initially undefined). -/
structure MonarchSchemaType where
  kind : MonarchSchemaTypeKind
  _required : Bool := true
  _nullable : Bool := false
  _default : JsValue := JsValue.undef
  deriving DecidableEq, Repr

/-- Getter `getInnerType` of src/schema-type.ts. -/
def MonarchSchemaType.getInnerType (t : MonarchSchemaType) : MonarchSchemaTypeKind :=
  t.kind

/-- Getter `getDefault` of src/schema-type.ts. -/
def MonarchSchemaType.getDefault (t : MonarchSchemaType) : JsValue :=
  t._default

/-- Getter `isRequired` of src/schema-type.ts. -/
def MonarchSchemaType.isRequired (t : MonarchSchemaType) : Bool :=
  t._required

/-- Getter `isNullable` of src/schema-type.ts. -/
def MonarchSchemaType.isNullable (t : MonarchSchemaType) : Bool :=
  t._nullable

/-- Configuration method `default(value)`: sets `_default`. -/
def MonarchSchemaType.default (t : MonarchSchemaType) (value : JsValue) : MonarchSchemaType :=
  { t with _default := value }

/-- Configuration method `required()`: sets `_required` to true. -/
def MonarchSchemaType.required (t : MonarchSchemaType) : MonarchSchemaType :=
  { t with _required := true }

/-- Configuration method `optional()`: sets `_required` to false. -/
def MonarchSchemaType.optional (t : MonarchSchemaType) : MonarchSchemaType :=
  { t with _required := false }

/-- Configuration method `nullable()`: sets `_nullable` to true and also
fixes `_default` to null. -/
def MonarchSchemaType.nullable (t : MonarchSchemaType) : MonarchSchemaType :=
  { t with _nullable := true, _default := JsValue.null }

/-- `MonarchString.create()`. -/
def MonarchString.create : MonarchSchemaType :=
  { kind := MonarchSchemaTypeKind.MonarchString }

/-- `MonarchNumber.create()`. -/
def MonarchNumber.create : MonarchSchemaType :=
  { kind := MonarchSchemaTypeKind.MonarchNumber }

/-- `MonarchBoolean.create()`. -/
def MonarchBoolean.create : MonarchSchemaType :=
  { kind := MonarchSchemaTypeKind.MonarchBoolean }

/-- `MonarchDate.create()`. -/
def MonarchDate.create : MonarchSchemaType :=
  { kind := MonarchSchemaTypeKind.MonarchDate }

/-- `MonarchSchemaType.baseParse` (src/schema-type.ts lines 28-48),
translated statement by statement. `newValue` starts as undefined; a
required field with an undefined value throws "Field is required."; a
nullable field sets `newValue` to null on a null value; any value other
than undefined (null included) is then checked with `typeof` against the
kind string and throws a type mismatch on failure; finally `newValue`
falls back to the configured default when it is still undefined. -/
def MonarchSchemaType.baseParse (t : MonarchSchemaType) (value : JsValue) :
    Except MError JsValue :=
  if t.isRequired ∧ value = JsValue.undef then
    Except.error (MError.thrown "Field is required.")
  else
    let newValue : JsValue :=
      if t.isNullable ∧ value = JsValue.null then JsValue.null else JsValue.undef
    let afterTypeCheck : Except MError JsValue :=
      if value ≠ JsValue.undef then
        if jsTypeof value ≠ kindString t.getInnerType then
          Except.error (MError.thrown
            ("Field must be of type \x27" ++ kindString t.getInnerType ++ "\x27."))
        else Except.ok value
      else Except.ok newValue
    afterTypeCheck.map (fun nv => if nv ≠ JsValue.undef then nv else t.getDefault)

/-- `MonarchNumber.parse` (src/schema-type.ts lines 124-128): throws
"Not a number" when the value is not of runtime type number AND the field
is required; otherwise returns `Number(value)`. -/
def MonarchNumber.parse (t : MonarchSchemaType) (value : JsValue) :
    Except MError JsValue :=
  if jsTypeof value ≠ "number" ∧ t._required then
    Except.error (MError.thrown "Not a number")
  else Except.ok (jsNumber value)

/-- `MonarchBoolean.parse` (src/schema-type.ts lines 170-174): throws
"Not a boolean" when the value is not of runtime type boolean AND the field
is required; otherwise returns `Boolean(value)`. -/
def MonarchBoolean.parse (t : MonarchSchemaType) (value : JsValue) :
    Except MError JsValue :=
  if jsTypeof value ≠ "boolean" ∧ t._required then
    Except.error (MError.thrown "Not a boolean")
  else Except.ok (JsValue.boolean (jsTruthy value))

/-- C1: the claim says that for a nullable field `baseParse` on an explicit
null succeeds and returns null. In the code the nullable branch assigns
null to `newValue`, but the following `value !== undefined` block still
runs the `typeof` check on null; `typeof null` is "object", which is never
a declared kind string, so `baseParse` throws the type-mismatch error for
every nullable field given null. Evaluated here at the failing input: a
nullable string field parsing null. The dead `newValue = null` assignment
in the nullable branch shows the spec behaviour was the intent. -/
theorem C1_nullable_null_rejected :
    (MonarchString.create.nullable).isNullable = true ∧
    MonarchSchemaType.baseParse (MonarchString.create.nullable) JsValue.null =
      Except.error (MError.thrown ("Field must be of type \x27string\x27.")) := by
  decide

/-- C3 counterexample: the claim says parsing an absent value fails with
the required-field error if and only if the field is required AND no
default exists. A required number field configured with default 5 still
fails on an absent value, so the claimed biconditional is false. -/
theorem C3_counterexample :
    (MonarchNumber.create.default (JsValue.num 5)).isRequired = true ∧
    (MonarchNumber.create.default (JsValue.num 5)).getDefault = JsValue.num 5 ∧
    MonarchSchemaType.baseParse (MonarchNumber.create.default (JsValue.num 5))
        JsValue.undef =
      Except.error (MError.thrown "Field is required.") := by
  decide

/-- C3 (amended): parsing an absent (undefined) raw value fails with the
required-field error if and only if the field is required — a configured
default does not prevent the failure — and when the field is not required
it returns the configured default value (null when nullable was set,
undefined when none was configured). -/
theorem C3_absent_value_behavior (t : MonarchSchemaType) :
    (t.baseParse JsValue.undef =
        Except.error (MError.thrown "Field is required.") ↔ t.isRequired = true) ∧
    (t.isRequired = false → t.baseParse JsValue.undef = Except.ok t.getDefault) := by
  unfold MonarchSchemaType.baseParse
  cases h : t.isRequired with
  | true => simp [h, MonarchSchemaType.isNullable]
  | false => simp [h, MonarchSchemaType.isNullable, Except.map]

/-- C3 witness: the amended theorem applied to a concrete optional number
field with default 5; its absent-value parse returns the default. -/
theorem C3_absent_value_behavior_witness :
    ((MonarchNumber.create.optional.default (JsValue.num 5)).isRequired = false) ∧
    (MonarchNumber.create.optional.default (JsValue.num 5)).baseParse JsValue.undef =
      Except.ok ((MonarchNumber.create.optional.default (JsValue.num 5)).getDefault) :=
  ⟨by decide,
   (C3_absent_value_behavior (MonarchNumber.create.optional.default (JsValue.num 5))).2
     (by decide)⟩

/-- C6 counterexample: the claim says a present, non-null value of the
wrong runtime type always fails with a type-mismatch error regardless of
required or optional, and is never coerced. For an optional number field,
`MonarchNumber.parse` on the boolean true skips the type check (it is
guarded by `_required`) and returns the coerced value `Number(true) = 1`. -/
theorem C6_counterexample :
    (MonarchNumber.create.optional).isRequired = false ∧
    jsTypeof (JsValue.boolean true) ≠ kindString MonarchSchemaTypeKind.MonarchNumber ∧
    MonarchNumber.parse (MonarchNumber.create.optional) (JsValue.boolean true) =
      Except.ok (JsValue.num 1) := by
  decide

/-- C6 (amended): in `MonarchNumber.parse` and `MonarchBoolean.parse` the
runtime-type check applies only when the field is required: a required
field with a value of the wrong runtime type fails with the generic
"Not a number" or "Not a boolean" error, while an optional field skips the
check entirely and returns the coerced value (`Number(value)` or
`Boolean(value)`), so strict non-coercion does not hold for optional
fields. -/
theorem C6_parse_required_only_check (t : MonarchSchemaType) (v : JsValue) :
    (t._required = true → jsTypeof v ≠ "number" →
      MonarchNumber.parse t v = Except.error (MError.thrown "Not a number")) ∧
    (t._required = true → jsTypeof v ≠ "boolean" →
      MonarchBoolean.parse t v = Except.error (MError.thrown "Not a boolean")) ∧
    (t._required = false → MonarchNumber.parse t v = Except.ok (jsNumber v)) ∧
    (t._required = false →
      MonarchBoolean.parse t v = Except.ok (JsValue.boolean (jsTruthy v))) := by
  refine ⟨?_, ?_, ?_, ?_⟩ <;> intro hreq
  · intro hty
    simp [MonarchNumber.parse, hreq, hty]
  · intro hty
    simp [MonarchBoolean.parse, hreq, hty]
  · simp [MonarchNumber.parse, hreq]
  · simp [MonarchBoolean.parse, hreq]

/-- C6 witness: the amended theorem applied to a concrete required number
field on a boolean value (the check fires) and to the corresponding
optional field (the value is coerced). -/
theorem C6_parse_required_only_check_witness :
    MonarchNumber.parse MonarchNumber.create (JsValue.boolean true) =
      Except.error (MError.thrown "Not a number") ∧
    MonarchNumber.parse MonarchNumber.create.optional (JsValue.str "abc") =
      Except.ok (jsNumber (JsValue.str "abc")) :=
  ⟨(C6_parse_required_only_check MonarchNumber.create (JsValue.boolean true)).1
      (by decide) (by decide),
   (C6_parse_required_only_check MonarchNumber.create.optional (JsValue.str "abc")).2.2.1
      (by decide)⟩

/-- A Relation as consumed by `FindOneQuery._execWithPopulate`
(src/collection/query/find-one-and-update.ts): `population.target.name`
is the target collection name and `population.options.field` is the field
of the target collection matched against the local value. -/
structure Relation where
  targetName : String
  targetField : String
  deriving DecidableEq, Repr

/-- Aggregation pipeline stages emitted by `_execWithPopulate`, over an
arbitrary type `F` of store-native filters (filters are passed through
unmodified). The lookup stage records the target collection, the
pipeline-local variable binding (name and bound expression), the equality
tested inside the lookup sub-pipeline, and the output array field. -/
inductive Stage (F : Type) where
  | matchStage (filter : F)
  | lookup (fromColl : String) (letVar : String) (letVal : String)
      (eqLeft : String) (eqRight : String) (asField : String)
  | unwind (path : String)
  | unset (field : String)
  | set (field : String) (value : String)
  deriving DecidableEq, Repr

/-- The JS indexing `this._schema.relations[key]`: first matching entry of
the relation map, or undefined (modelled as none). -/
def lookupRel (relations : List (String × Relation)) (key : String) : Option Relation :=
  (relations.find? (fun kv => kv.1 = key)).map (fun kv => kv.2)

/-- The pipeline-local variable name built by `_execWithPopulate`:
it interpolates only the target field name. -/
def foreignFieldVariable (foreignField : String) : String :=
  "monarch_" ++ foreignField ++ "_var"

/-- The temporary joined-array field name built by `_execWithPopulate`:
it interpolates only the relation key. -/
def foreignFieldData (key : String) : String :=
  "monarch_" ++ key ++ "_data"

/-- The five stages pushed for one populated relation by
`_execWithPopulate` (src/collection/query/find-one-and-update.ts lines
206-234): lookup, unwind of the joined array, unset of the original
foreign-key field, set of the field to the joined document, unset of the
temporary joined-array field. -/
def populateStages {F : Type} (key : String) (population : Relation) : List (Stage F) :=
  [ Stage.lookup population.targetName
      (foreignFieldVariable population.targetField)
      ("$" ++ key)
      ("$" ++ population.targetField)
      ("$$" ++ foreignFieldVariable population.targetField)
      (foreignFieldData key),
    Stage.unwind ("$" ++ foreignFieldData key),
    Stage.unset key,
    Stage.set key ("$" ++ foreignFieldData key),
    Stage.unset (foreignFieldData key) ]

/-- The population loop of `_execWithPopulate`: entries with a falsy value
are skipped; for the rest, the relation is looked up on the schema — an
unknown key makes the JS code read `.target` of undefined, an unguarded
runtime TypeError — and the five stages are appended to the accumulated
pipeline. -/
def buildPipelineAux {F : Type} (relations : List (String × Relation))
    (population : List (String × Bool)) (acc : List (Stage F)) :
    Except MError (List (Stage F)) :=
  match population with
  | [] => Except.ok acc
  | (key, value) :: rest =>
    if value = false then buildPipelineAux relations rest acc
    else
      match lookupRel relations key with
      | none => Except.error MError.typeError
      | some population => buildPipelineAux relations rest (acc ++ populateStages key population)

/-- The pipeline compiled by `_execWithPopulate`: one match stage carrying
the base filter, then the population loop. -/
def buildPipeline {F : Type} (relations : List (String × Relation)) (filter : F)
    (population : List (String × Bool)) : Except MError (List (Stage F)) :=
  buildPipelineAux relations population [Stage.matchStage filter]

/-- The aggregate commands issued by `_execWithPopulate`: the single
`collection.aggregate(pipeline)` call happens after the loop, so it is
reached only when pipeline compilation succeeded. -/
def aggregateCalls {F : Type} (relations : List (String × Relation)) (filter : F)
    (population : List (String × Bool)) : List (List (Stage F)) :=
  match buildPipeline relations filter population with
  | Except.ok p => [p]
  | Except.error _ => []

/-- The five stages a relation key contributes, as looked up on the schema
(empty when the key is unknown; only used under a hypothesis ruling that
out). -/
def expectedRelationStages {F : Type} (relations : List (String × Relation))
    (key : String) : List (Stage F) :=
  match lookupRel relations key with
  | some r => populateStages key r
  | none => []

/-- The letVar component of each lookup stage of a pipeline, in order. -/
def lookupLetVars {F : Type} (stages : List (Stage F)) : List String :=
  stages.filterMap (fun s =>
    match s with
    | Stage.lookup _ v _ _ _ _ => some v
    | _ => none)

/-- The asField component of each lookup stage of a pipeline, in order. -/
def lookupAsFields {F : Type} (stages : List (Stage F)) : List String :=
  stages.filterMap (fun s =>
    match s with
    | Stage.lookup _ _ _ _ _ a => some a
    | _ => none)

lemma buildPipelineAux_ok {F : Type} (relations : List (String × Relation))
    (population : List (String × Bool)) (acc : List (Stage F))
    (hTrue : ∀ kv ∈ population, kv.2 = true)
    (hKnown : ∀ kv ∈ population, (lookupRel relations kv.1).isSome) :
    buildPipelineAux relations population acc =
      Except.ok (acc ++ population.flatMap
        (fun kv => expectedRelationStages relations kv.1)) := by
  induction population generalizing acc with
  | nil => simp [buildPipelineAux]
  | cons kv rest ih =>
    obtain ⟨key, value⟩ := kv
    have hv : value = true := hTrue (key, value) (by simp)
    have hk : (lookupRel relations key).isSome := hKnown (key, value) (by simp)
    obtain ⟨r, hr⟩ := Option.isSome_iff_exists.mp hk
    have hrest1 : ∀ kv ∈ rest, kv.2 = true := fun kv h => hTrue kv (by simp [h])
    have hrest2 : ∀ kv ∈ rest, (lookupRel relations kv.1).isSome :=
      fun kv h => hKnown kv (by simp [h])
    simp only [buildPipelineAux, hv, hr]
    rw [if_neg (by simp), ih _ hrest1 hrest2]
    simp [expectedRelationStages, hr, List.append_assoc]

lemma flatMap_expected_length {F : Type} (relations : List (String × Relation))
    (population : List (String × Bool))
    (hKnown : ∀ kv ∈ population, (lookupRel relations kv.1).isSome) :
    (population.flatMap
      (fun kv => expectedRelationStages (F := F) relations kv.1)).length =
      5 * population.length := by
  induction population with
  | nil => simp
  | cons kv rest ih =>
    have hk : (lookupRel relations kv.1).isSome := hKnown kv (by simp)
    obtain ⟨r, hr⟩ := Option.isSome_iff_exists.mp hk
    have hrest : ∀ kv ∈ rest, (lookupRel relations kv.1).isSome :=
      fun kv h => hKnown kv (by simp [h])
    have hlen : (expectedRelationStages (F := F) relations kv.1).length = 5 := by
      simp [expectedRelationStages, hr, populateStages]
    rw [List.flatMap_cons, List.length_append, hlen, ih hrest]
    simp only [List.length_cons]
    omega

/-- C2: when every requested relation key is truthy and declared on the
schema, the pipeline compiled by `_execWithPopulate` for N requested keys
is exactly the match stage carrying the base filter followed by, for each
key in request order, the five stages lookup, unwind, unset-original,
set-replacement, unset-temporary (see `populateStages`), for a total of
1 + 5N stages. -/
theorem C2_pipeline_shape {F : Type} (relations : List (String × Relation))
    (filter : F) (population : List (String × Bool))
    (hTrue : ∀ kv ∈ population, kv.2 = true)
    (hKnown : ∀ kv ∈ population, (lookupRel relations kv.1).isSome) :
    buildPipeline relations filter population =
      Except.ok (Stage.matchStage filter :: population.flatMap
        (fun kv => expectedRelationStages relations kv.1)) ∧
    (Stage.matchStage filter :: population.flatMap
        (fun kv => expectedRelationStages relations kv.1)).length =
      1 + 5 * population.length := by
  constructor
  · unfold buildPipeline
    rw [buildPipelineAux_ok relations population _ hTrue hKnown]
    simp
  · simp [flatMap_expected_length relations population hKnown, Nat.add_comm]

/-- Example schema relation map used by concrete witnesses: two declared
relations on distinct target collections. -/
def exRelations : List (String × Relation) :=
  [("author", { targetName := "users", targetField := "_id" }),
   ("tag", { targetName := "tags", targetField := "slug" })]

/-- Example population request: both declared relations, truthy, in order. -/
def exPopulation : List (String × Bool) :=
  [("author", true), ("tag", true)]

/-- C2 witness: the pipeline-shape theorem applied to the concrete
two-relation request, both hypotheses discharged by evaluation. -/
theorem C2_pipeline_shape_witness :
    buildPipeline exRelations "baseFilter" exPopulation =
      Except.ok (Stage.matchStage "baseFilter" :: exPopulation.flatMap
        (fun kv => expectedRelationStages exRelations kv.1)) ∧
    (Stage.matchStage "baseFilter" :: exPopulation.flatMap
        (fun kv => expectedRelationStages exRelations kv.1)).length =
      1 + 5 * exPopulation.length :=
  C2_pipeline_shape exRelations "baseFilter" exPopulation (by decide) (by decide)

lemma buildPipelineAux_unknown {F : Type} (relations : List (String × Relation))
    (population : List (String × Bool)) (acc : List (Stage F))
    (h : ∃ kv ∈ population, kv.2 = true ∧ lookupRel relations kv.1 = none) :
    buildPipelineAux relations population acc = Except.error MError.typeError := by
  induction population generalizing acc with
  | nil => simp at h
  | cons kv rest ih =>
    obtain ⟨key, value⟩ := kv
    rcases h with ⟨bad, hbad, htrue, hnone⟩
    rcases List.mem_cons.mp hbad with hhead | htail
    · cases hhead
      have hv : value = true := htrue
      have hn : lookupRel relations key = none := hnone
      simp only [buildPipelineAux]
      rw [if_neg (by simp [hv]), hn]
    · by_cases hv : value = false
      · simp only [buildPipelineAux, if_pos hv]
        exact ih _ ⟨bad, htail, htrue, hnone⟩
      · simp only [buildPipelineAux, if_neg hv]
        cases hr : lookupRel relations key with
        | none => rfl
        | some r => exact ih _ ⟨bad, htail, htrue, hnone⟩

/-- C5 (amended): a population request containing a truthy relation key
that is not declared on the schema makes pipeline compilation fail — via
the unguarded runtime TypeError from reading `.target` of the undefined
relation lookup, not via a dedicated UnknownRelationError carrying the key
— and the failure occurs before any store round-trip: no aggregate command
is issued. -/
theorem C5_unknown_relation_aborts {F : Type} (relations : List (String × Relation))
    (filter : F) (population : List (String × Bool))
    (h : ∃ kv ∈ population, kv.2 = true ∧ lookupRel relations kv.1 = none) :
    buildPipeline relations filter population = Except.error MError.typeError ∧
    aggregateCalls relations filter population = [] := by
  have hb := buildPipelineAux_unknown relations population [Stage.matchStage filter] h
  exact ⟨hb, by simp [aggregateCalls, buildPipeline, hb]⟩

/-- C5 witness: the amended theorem applied to a request naming the
undeclared relation key writer on the example schema. -/
theorem C5_unknown_relation_aborts_witness :
    buildPipeline (F := String) exRelations "f" [("writer", true)] =
      Except.error MError.typeError ∧
    aggregateCalls (F := String) exRelations "f" [("writer", true)] = [] :=
  C5_unknown_relation_aborts exRelations "f" [("writer", true)]
    ⟨("writer", true), by decide, by decide, by decide⟩

/-- C5 counterexample: the claim says compilation fails with an
UnknownRelationError. At the concrete request naming the undeclared key
writer, the failure produced is `MError.typeError` — the unguarded runtime
TypeError of a property access on undefined, not a deliberately thrown
Error and carrying no relation name — so no UnknownRelationError is
raised (the aborting-before-any-aggregate half of the claim does hold). -/
theorem C5_counterexample :
    buildPipeline (F := String) exRelations "f" [("writer", true)] =
      Except.error MError.typeError ∧
    MError.typeError.isThrown = false ∧
    aggregateCalls (F := String) exRelations "f" [("writer", true)] = [] := by
  decide

lemma string_data_append (s t : String) : (s ++ t).data = s.data ++ t.data := by
  cases s
  cases t
  rfl

lemma foreignFieldData_inj (k1 k2 : String)
    (h : foreignFieldData k1 = foreignFieldData k2) : k1 = k2 := by
  unfold foreignFieldData at h
  have hd : ("monarch_".data ++ k1.data) ++ "_data".data =
      ("monarch_".data ++ k2.data) ++ "_data".data := by
    have hc := congrArg String.data h
    simpa [string_data_append] using hc
  have h2 := List.append_cancel_right hd
  have h3 := List.append_cancel_left h2
  cases k1
  cases k2
  cases h3
  rfl

/-- Example schema relation map with two distinct relations that both
target the field _id of the collection users. -/
def c7Relations : List (String × Relation) :=
  [("author", { targetName := "users", targetField := "_id" }),
   ("editor", { targetName := "users", targetField := "_id" })]

/-- C7 counterexample: the claim says the pipeline-local lookup variable
name is derived from the relation key and the target field name and is
distinct between two distinct relations. The code derives it from the
target field name alone (`foreignFieldVariable`), so for the two distinct
relations author and editor, which both target the field _id, the two
compiled lookup stages carry the identical variable name monarch__id_var. -/
theorem C7_counterexample :
    (buildPipeline (F := String) c7Relations "f"
        [("author", true), ("editor", true)]).map lookupLetVars =
      Except.ok ["monarch__id_var", "monarch__id_var"] := by
  decide

/-- C7 (amended): for two distinct relation keys populated in the same
compile, the temporary joined-array field names — derived from the
relation key alone (`foreignFieldData`) — are distinct, and each relation
block writes its join result to its own temporary field, so two relations
targeting the same collection never collide on the temporary field. The
lookup variable name, by contrast, is derived from the target field name
alone and coincides when two relations target the same field (it is,
however, local to its own lookup stage). -/
theorem C7_temp_field_names_distinct (k1 k2 : String) (r1 r2 : Relation)
    (h : k1 ≠ k2) :
    foreignFieldData k1 ≠ foreignFieldData k2 ∧
    lookupAsFields (populateStages (F := String) k1 r1) = [foreignFieldData k1] ∧
    lookupAsFields (populateStages (F := String) k2 r2) = [foreignFieldData k2] := by
  refine ⟨fun hc => h (foreignFieldData_inj _ _ hc), ?_, ?_⟩ <;>
    simp [lookupAsFields, populateStages]

/-- C7 witness: the amended theorem applied to the concrete keys author
and editor with both relations targeting users._id. -/
theorem C7_temp_field_names_distinct_witness :
    foreignFieldData "author" ≠ foreignFieldData "editor" ∧
    lookupAsFields (populateStages (F := String) "author"
        { targetName := "users", targetField := "_id" }) = [foreignFieldData "author"] ∧
    lookupAsFields (populateStages (F := String) "editor"
        { targetName := "users", targetField := "_id" }) = [foreignFieldData "editor"] :=
  C7_temp_field_names_distinct "author" "editor"
    { targetName := "users", targetField := "_id" }
    { targetName := "users", targetField := "_id" } (by decide)

/-- Modelled from the spec: the runtime Projection value produced by
`makeProjection` (src/collection/utils/projection.ts is not among the
sources). Spec section 3 describes a Projection as a mapping from field
name to inclusion(1)/exclusion(0) intent plus a mode (select = whitelist,
omit = blacklist); since the mode fixes the flag of every listed field
uniformly, the value is kept as the mode together with the listed field
names. -/
structure Projection where
  mode : String
  fields : List String
  deriving DecidableEq, Repr

/-- Modelled from the spec: `makeProjection(mode, request)` builds the
Projection of the given mode over the requested field set; it receives
only the mode and the one requested set, as at its call sites in
src/collection/query/find-one-and-update.ts. -/
def makeProjection (mode : String) (request : List String) : Projection :=
  { mode := mode, fields := request }

/-- Modelled from the spec: `addExtraInputsToProjection`
(src/collection/utils/projection.ts is not among the sources) returns the
auxiliary extra-fields-to-synthesize list that the Document Codec consults
after receiving raw results — the virtual fields of the schema (spec
section 4.2); an absent virtuals option contributes none. -/
def addExtraInputsToProjection (_projection : Projection)
    (virtuals : Option (List String)) : List String :=
  virtuals.getD []

/-- Modelled from the spec: of a `Schema.fromData(schema, data, projection,
extra)` call, the Document Codec synthesizes exactly the virtual fields
listed in the `extra` argument (spec section 4.4); a null `extra`
contributes none. -/
def fromDataSynthesized (extra : Option (List String)) : List String :=
  extra.getD []

/-- One `Schema.fromData` invocation as issued by the query layer: the raw
store document, the active projection and the extra-fields argument
(`none` models passing null). -/
structure FromDataCall where
  raw : List (String × JsValue)
  projection : Projection
  extra : Option (List String)
  deriving DecidableEq, Repr

/-- One target entry of a JS object merge: its value is overridden by the
source where the source has the same key. -/
def jsAssignEntry {α : Type} (source : List (String × α)) (kv : String × α) :
    String × α :=
  match source.find? (fun kv2 => kv2.1 = kv.1) with
  | some kv2 => (kv.1, kv2.2)
  | none => kv

/-- JS `Object.assign(target, source)` / object spread on association
lists: keys of `target` keep their positions with values overridden by
`source` where present; keys only in `source` are appended in order. -/
def jsAssign {α : Type} (target source : List (String × α)) : List (String × α) :=
  target.map (jsAssignEntry source) ++
  source.filter (fun kv2 => (target.find? (fun kv => kv.1 = kv2.1)).isNone)

/-- JS property read `o[k]` on an association list (first match). -/
def objGet {α : Type} (o : List (String × α)) (k : String) : Option α :=
  (o.find? (fun kv => kv.1 = k)).map (fun kv => kv.2)

/-- The mutable state of a `FindOneQuery`
(src/collection/query/find-one-and-update.ts lines 123-165): the schema
options it reads (omit, virtuals, relations), the filter, and the
`_projection` and `_population` fields. -/
structure FindOneQueryState (F : Type) where
  schemaOmit : Option (List String)
  schemaVirtuals : Option (List String)
  relations : List (String × Relation)
  filter : F
  projection : Projection
  population : List (String × Bool)
  deriving DecidableEq, Repr

/-- The `FindOneQuery` constructor: `_projection` is initialized to
`makeProjection("omit", schema.options.omit ?? empty)` and `_population`
to the empty record. -/
def mkFindOneQuery {F : Type} (schemaOmit schemaVirtuals : Option (List String))
    (relations : List (String × Relation)) (filter : F) : FindOneQueryState F :=
  { schemaOmit := schemaOmit, schemaVirtuals := schemaVirtuals,
    relations := relations, filter := filter,
    projection := makeProjection "omit" (schemaOmit.getD []),
    population := [] }

/-- The `omit` method of `FindOneQuery` (lines 146-152): replaces
`_projection` with `makeProjection("omit", request)`. -/
def FindOneQueryState.omitMethod {F : Type} (q : FindOneQueryState F)
    (request : List String) : FindOneQueryState F :=
  { q with projection := makeProjection "omit" request }

/-- The `select` method of `FindOneQuery` (lines 154-160): replaces
`_projection` with `makeProjection("select", request)`. -/
def FindOneQueryState.selectMethod {F : Type} (q : FindOneQueryState F)
    (request : List String) : FindOneQueryState F :=
  { q with projection := makeProjection "select" request }

/-- The `populate` method of `FindOneQuery` (lines 162-165):
`Object.assign` of the request into `_population`. -/
def FindOneQueryState.populateMethod {F : Type} (q : FindOneQueryState F)
    (request : List (String × Bool)) : FindOneQueryState F :=
  { q with population := jsAssign q.population request }

/-- The `Schema.fromData` call made by `_execWithoutPopulate` (lines
175-192) on a found document: the extra argument is the list produced by
`addExtraInputsToProjection(projection, schema.options.virtuals)`. -/
def FindOneQueryState.execWithoutPopulateCall {F : Type} (q : FindOneQueryState F)
    (res : List (String × JsValue)) : FromDataCall :=
  { raw := res, projection := q.projection,
    extra := some (addExtraInputsToProjection q.projection q.schemaVirtuals) }

/-- The `Schema.fromData` call made by `_execWithPopulate` (lines 236-245)
on the first aggregation result: the extra argument is the null literal. -/
def FindOneQueryState.execWithPopulateCall {F : Type} (q : FindOneQueryState F)
    (res : List (String × JsValue)) : FromDataCall :=
  { raw := res, projection := q.projection, extra := none }

/-- Example query for C4: built on a schema whose base omit set contains
password, with no virtuals and no relations. -/
def c4Query : FindOneQueryState String :=
  mkFindOneQuery (some ["password"]) none [] "f"

/-- C4 counterexample: the claim says a caller-supplied omit request
yields an omit projection over the union of the base omit set of the
schema and the requested set. On a schema with base omit password, calling
the omit method with age produces the omit projection over age alone:
password is no longer omitted, so the fields are not the union. -/
theorem C4_counterexample :
    (c4Query.omitMethod ["age"]).projection =
      { mode := "omit", fields := ["age"] } ∧
    c4Query.schemaOmit = some ["password"] ∧
    ("password" ∈ (c4Query.omitMethod ["age"]).projection.fields) = False := by
  decide

/-- C4 (amended): when the caller supplies an omit-mode request the
resulting projection is omit-mode over exactly the requested set — the
omit method replaces the projection, with no union with the base omit set
of the schema — and when no request is supplied the constructor defaults
the projection to omit-mode over the base omit set of the schema. -/
theorem C4_omit_replaces_projection {F : Type}
    (schemaOmit schemaVirtuals : Option (List String))
    (relations : List (String × Relation)) (filter : F)
    (q : FindOneQueryState F) (request : List String) :
    (mkFindOneQuery schemaOmit schemaVirtuals relations filter).projection =
      makeProjection "omit" (schemaOmit.getD []) ∧
    (q.omitMethod request).projection = makeProjection "omit" request :=
  ⟨rfl, rfl⟩

/-- Example query for C8: built on a schema with one virtual field
fullName. -/
def c8Query : FindOneQueryState String :=
  mkFindOneQuery none (some ["fullName"]) [] "f"

/-- C8 counterexample: the claim says virtual fields are synthesized
uniformly in both execution paths. On a schema with virtual fullName, the
plain find path passes the virtuals as the extra list and fullName is
synthesized, but the population path passes the null literal as the extra
argument of `Schema.fromData`, so no virtual is synthesized there. -/
theorem C8_counterexample :
    fromDataSynthesized (c8Query.execWithoutPopulateCall []).extra = ["fullName"] ∧
    fromDataSynthesized (c8Query.execWithPopulateCall []).extra = [] := by
  decide

/-- C8 (amended): in the plain find path the schema virtuals are appended
to the extra-fields-to-synthesize list handed to the Document Codec, but
the population path hands the codec a null extra argument, so virtual
fields are synthesized only in the plain path — the two paths are not
uniform in this respect. -/
theorem C8_virtuals_only_plain_path {F : Type} (q : FindOneQueryState F)
    (res : List (String × JsValue)) :
    (q.execWithoutPopulateCall res).extra =
      some (addExtraInputsToProjection q.projection q.schemaVirtuals) ∧
    (q.execWithPopulateCall res).extra = none :=
  ⟨rfl, rfl⟩

lemma find?_append_eq {α : Type} (p : α → Bool) (l1 l2 : List α) :
    (l1 ++ l2).find? p = ((l1.find? p).orElse (fun _ => l2.find? p)) := by
  induction l1 with
  | nil => simp [Option.orElse]
  | cons a l ih =>
    cases hp : p a <;> simp [List.find?, hp, ih, Option.orElse]

lemma find?_map_keyfix {α : Type} (a : List (String × α)) (f : String × α → String × α)
    (hf : ∀ kv, (f kv).1 = kv.1) (k : String) :
    (a.map f).find? (fun kv => kv.1 = k) =
      (a.find? (fun kv => kv.1 = k)).map f := by
  induction a with
  | nil => simp
  | cons kv rest ih =>
    by_cases hk : kv.1 = k
    · simp [List.find?, hf, hk]
    · simp [List.find?, hf, hk, ih]

lemma find?_filter_of {α : Type} (p q : α → Bool) (l : List α)
    (hq : ∀ x, p x = true → q x = true) :
    (l.filter q).find? p = l.find? p := by
  induction l with
  | nil => simp
  | cons a rest ih =>
    cases hp : p a with
    | true =>
      have hqa : q a = true := hq a hp
      simp [List.filter, hqa, List.find?, hp]
    | false =>
      cases hqa : q a <;> simp [List.filter, hqa, List.find?, hp, ih]

lemma jsAssignEntry_key {α : Type} (source : List (String × α)) (kv : String × α) :
    (jsAssignEntry source kv).1 = kv.1 := by
  unfold jsAssignEntry
  cases hb : source.find? (fun kv2 => kv2.1 = kv.1) <;> simp

lemma objGet_jsAssign {α : Type} (a b : List (String × α)) (k : String) :
    objGet (jsAssign a b) k = (objGet b k).orElse (fun _ => objGet a k) := by
  unfold jsAssign objGet
  rw [find?_append_eq, find?_map_keyfix a _ (jsAssignEntry_key b) k]
  cases hfa : a.find? (fun kv => kv.1 = k) with
  | none =>
    have hfil : (b.filter
        (fun kv2 => (a.find? (fun kv => kv.1 = kv2.1)).isNone)).find?
          (fun kv => kv.1 = k) = b.find? (fun kv => kv.1 = k) := by
      apply find?_filter_of
      intro x hx
      have hxk : x.1 = k := by simpa using hx
      rw [hxk, hfa]
      rfl
    rw [hfil]
    cases hfb : b.find? (fun kv => kv.1 = k) <;> simp [Option.orElse]
  | some kv =>
    have hkk : kv.1 = k := by
      have hp := List.find?_some hfa
      simpa using hp
    cases hfb : b.find? (fun kv2 => kv2.1 = k) with
    | some kv2 => simp [Option.orElse, jsAssignEntry, hkk, hfb]
    | none => simp [Option.orElse, jsAssignEntry, hkk, hfb]

/-- The mutable state of a `FindOneAndUpdateQuery`
(src/collection/query/find-one-and-update.ts lines 27-96): the schema
options it reads, the filter, the caller update (only its dollar-set
member is ever touched by exec; a missing dollar-set spreads as the empty
object and is modelled as the empty list), and the `_projection` and
`_population` fields. -/
structure FindOneAndUpdateQueryState (F : Type) where
  schemaOmit : Option (List String)
  schemaVirtuals : Option (List String)
  filter : F
  updateSet : List (String × JsValue)
  projection : Projection
  population : List (String × Bool)
  deriving DecidableEq, Repr

/-- The `FindOneAndUpdateQuery` constructor (lines 34-44): `_projection`
is initialized to `makeProjection("omit", schema.options.omit ?? empty)`
and `_population` to the empty record. -/
def mkFindOneAndUpdateQuery {F : Type}
    (schemaOmit schemaVirtuals : Option (List String)) (filter : F)
    (updateSet : List (String × JsValue)) : FindOneAndUpdateQueryState F :=
  { schemaOmit := schemaOmit, schemaVirtuals := schemaVirtuals,
    filter := filter, updateSet := updateSet,
    projection := makeProjection "omit" (schemaOmit.getD []),
    population := [] }

/-- The `populate` method of `FindOneAndUpdateQuery` (lines 67-70):
`Object.assign` of the request into `_population`; nothing else changes
(the rest of the effect of populate is a static cast of the result
type). -/
def FindOneAndUpdateQueryState.populateMethod {F : Type}
    (q : FindOneAndUpdateQueryState F) (request : List (String × Bool)) :
    FindOneAndUpdateQueryState F :=
  { q with population := jsAssign q.population request }

/-- The store command issued by `FindOneAndUpdateQuery.exec` (lines
72-96): a plain findOneAndUpdate carrying the filter, the update whose
dollar-set member has been replaced by the spread of the schema automatic
field updates then the caller dollar-set, and the projection. The command
has no pipeline component: exec never reads `_population` and builds no
lookup stages. `fieldUpdates` is the value of `Schema.getFieldUpdates`
for the schema, taken as an input here. -/
structure FindOneAndUpdateCmd (F : Type) where
  filter : F
  updateSet : List (String × JsValue)
  projection : Projection
  deriving DecidableEq, Repr

/-- The command built by `exec`: `update.$set = spread of fieldUpdates
then the caller set` (line 77), then
`findOneAndUpdate(filter, update, options with projection)`. -/
def FindOneAndUpdateQueryState.execCmd {F : Type}
    (q : FindOneAndUpdateQueryState F)
    (fieldUpdates : List (String × JsValue)) : FindOneAndUpdateCmd F :=
  { filter := q.filter,
    updateSet := jsAssign fieldUpdates q.updateSet,
    projection := q.projection }

/-- The decode step of `exec` (lines 88-95): a non-null store result is
handed to `Schema.fromData` with the projection and the extra list
computed by `addExtraInputsToProjection`; a null result is returned as
is. -/
def FindOneAndUpdateQueryState.execDecode {F : Type}
    (q : FindOneAndUpdateQueryState F)
    (res : Option (List (String × JsValue))) : Option FromDataCall :=
  res.map (fun d =>
    { raw := d, projection := q.projection,
      extra := some (addExtraInputsToProjection q.projection q.schemaVirtuals) })

/-- C9: calling populate on a `FindOneAndUpdateQuery` only records the
request in `_population` (and changes the static result type): exec never
consults the recorded population — the issued command (a plain
findOneAndUpdate, whose command type has no lookup stages at all) and the
decode of the result are identical whether or not populate was called, so
relation fields of the returned document still hold the raw foreign-key
values. -/
theorem C9_populate_ignored_by_exec {F : Type} (q : FindOneAndUpdateQueryState F)
    (request : List (String × Bool)) (fieldUpdates : List (String × JsValue))
    (res : Option (List (String × JsValue))) :
    (q.populateMethod request).execCmd fieldUpdates = q.execCmd fieldUpdates ∧
    (q.populateMethod request).execDecode res = q.execDecode res ∧
    (q.populateMethod request).population = jsAssign q.population request :=
  ⟨rfl, rfl, rfl⟩

/-- C10: `exec` merges the schema automatic field updates into the
dollar-set document of the update before the command is issued — the
issued command carries the spread of fieldUpdates then the caller set —
and for every key the merged document yields the caller value when the
caller set has the key, falling back to the automatic value otherwise, so
on keys present in both the caller value takes precedence. -/
theorem C10_field_updates_caller_precedence {F : Type}
    (q : FindOneAndUpdateQueryState F) (fieldUpdates : List (String × JsValue))
    (k : String) :
    (q.execCmd fieldUpdates).updateSet = jsAssign fieldUpdates q.updateSet ∧
    objGet ((q.execCmd fieldUpdates).updateSet) k =
      (objGet q.updateSet k).orElse (fun _ => objGet fieldUpdates k) :=
  ⟨rfl, objGet_jsAssign fieldUpdates q.updateSet k⟩
